import Mathlib

/-!
# Verification of the AIMS client façade (`src/aims-client.ts`)

A shallow embedding of the request-shaping layer of the AIMS client.
Each public method of `AIMSClientInstance` is translated into a pure Lean
function from the instance state and the method's arguments to the single
call it hands to the `AlApiClient` collaborator (the spec's Transport).
The instance state holds the two private fields (`serviceName`,
`environment`); the two environment setters are state transformers; every
other method is a pure reader of the state.

JavaScript's `undefined` (an absent object field, or the projection of an
absent field) is modelled by `Option.none`.  The `data` payloads are
translated exactly as the source builds them: template strings with the
argument values spliced in.
-/

/-- Modelled from the spec: the `AIMSAccount` entity of `./types` (file not
in the sources); only enough structure for list envelopes is needed. -/
structure AIMSAccount where
  id : String
  name : String
deriving DecidableEq

/-- Modelled from the spec: the `AIMSUser` entity of `./types` (file not in
the sources). -/
structure AIMSUser where
  id : String
  name : String
  email : String
deriving DecidableEq

/-- Modelled from the spec: the `AIMSRole` entity of `./types` (file not in
the sources). -/
structure AIMSRole where
  id : String
  name : String
deriving DecidableEq

/-- Modelled from the spec: the `AIMSAccessKey` entity of `./types` (file
not in the sources). -/
structure AIMSAccessKey where
  id : String
  label : String
deriving DecidableEq

/-- The argument object each method passes to `client.fetch` / `client.post`
/ `client.delete` / `client.set` (the source's `APIRequestParams`).  Fields
the method does not mention are absent (`none`). -/
structure APIRequestParams where
  service_name : String
  environment : String
  account_id : Option String := none
  path : String
  params : Option (List (String × String)) := none
  data : Option String := none
  retry_count : Option Nat := none
  ttl : Option Nat := none
deriving DecidableEq

/-- The single call a method makes on the `AlApiClient` collaborator. -/
inductive ClientCall where
  | fetch (p : APIRequestParams)
  | post (p : APIRequestParams)
  | delete (p : APIRequestParams)
  | set (p : APIRequestParams)
  | authenticate (user pass : String) (mfa : Option String) (environment : String)
  | authenticateWithMFASessionToken (token mfa : String) (environment : String)
deriving DecidableEq

/-- The mutable private fields of `AIMSClientInstance` (the `client` field
is the external collaborator and is not part of the request-shaping state). -/
structure AIMSClientInstance where
  serviceName : String
  environment : String
deriving DecidableEq

/-- A freshly constructed instance: `serviceName = 'aims'`,
`environment = 'production'`. -/
def mkInstance : AIMSClientInstance :=
  { serviceName := "aims", environment := "production" }

namespace AIMSClientInstance

/-- Method `createUser(accountId, name, email, mobilePhone)`. -/
def createUser (self : AIMSClientInstance)
    (accountId name email mobilePhone : String) : ClientCall :=
  ClientCall.post
    { service_name := self.serviceName
      environment := self.environment
      account_id := some accountId
      path := "/users"
      data := some ("\x7b\"name\": \"" ++ name ++ "\", \"email\": \"" ++ email ++
        "\", \"mobile_phone\": \"" ++ mobilePhone ++ "\"\x7d") }

/-- Method `deleteUser(accountId, userId)`. -/
def deleteUser (self : AIMSClientInstance) (accountId userId : String) : ClientCall :=
  ClientCall.delete
    { service_name := self.serviceName
      environment := self.environment
      account_id := some accountId
      path := "/users/" ++ userId }

/-- Method `getUserDetailsById(accountId, userId)`. -/
def getUserDetailsById (self : AIMSClientInstance) (accountId userId : String) : ClientCall :=
  ClientCall.fetch
    { service_name := self.serviceName
      environment := self.environment
      account_id := some accountId
      path := "/users/" ++ userId
      retry_count := some 5 }

/-- Method `getUserPermissions(accountId, userId)`. -/
def getUserPermissions (self : AIMSClientInstance) (accountId userId : String) : ClientCall :=
  ClientCall.fetch
    { service_name := self.serviceName
      environment := self.environment
      account_id := some accountId
      path := "/users/" ++ userId ++ "/permissions" }

/-- Method `getAccountDetails(accountId)`. -/
def getAccountDetails (self : AIMSClientInstance) (accountId : String) : ClientCall :=
  ClientCall.fetch
    { service_name := self.serviceName
      environment := self.environment
      account_id := some accountId
      path := "/account"
      retry_count := some 5 }

/-- Method `getManagedAccounts(accountId, queryParams?)` — the call passed to the
client; the `.accounts` projection of the response is `getManagedAccountsRun`. -/
def getManagedAccounts (self : AIMSClientInstance) (accountId : String)
    (queryParams : Option (List (String × String)) := none) : ClientCall :=
  ClientCall.fetch
    { service_name := self.serviceName
      environment := self.environment
      account_id := some accountId
      path := "/accounts/managed"
      params := queryParams
      retry_count := some 5 }

/-- Method `getManagedAccountIds(accountId, queryParams?)`. -/
def getManagedAccountIds (self : AIMSClientInstance) (accountId : String)
    (queryParams : Option (List (String × String)) := none) : ClientCall :=
  ClientCall.fetch
    { service_name := self.serviceName
      environment := self.environment
      account_id := some accountId
      path := "/account_ids/managed"
      params := queryParams
      retry_count := some 5 }

/-- Method `requireMFA(accountId, mfaRequired)` — the body splices the boolean into
a template string (`true`/`false`, unquoted key). -/
def requireMFA (self : AIMSClientInstance) (accountId : String) (mfaRequired : Bool) : ClientCall :=
  ClientCall.post
    { service_name := self.serviceName
      environment := self.environment
      account_id := some accountId
      path := "/account"
      data := some ("\x7bmfa_required: " ++ (if mfaRequired then "true" else "false") ++ "\x7d") }

/-- Method `authenticate(user, pass, mfa?)` — delegates to
`client.authenticate(user, pass, mfa, this.environment)`. -/
def authenticate (self : AIMSClientInstance) (user pass : String)
    (mfa : Option String := none) : ClientCall :=
  ClientCall.authenticate user pass mfa self.environment

/-- Method `authenticateWithMFASessionToken(token, mfa)` — delegates to the client
with `this.environment`. -/
def authenticateWithMFASessionToken (self : AIMSClientInstance) (token mfa : String) : ClientCall :=
  ClientCall.authenticateWithMFASessionToken token mfa self.environment

/-- Method `changePassword(email, password, newPassword)` — no `account_id`;
template string with unquoted keys and values. -/
def changePassword (self : AIMSClientInstance) (email password newPassword : String) : ClientCall :=
  ClientCall.post
    { service_name := self.serviceName
      environment := self.environment
      path := "/change_password"
      data := some ("\x7bemail: " ++ email ++ ", current_password: " ++ password ++
        ", new_password: " ++ newPassword ++ "\x7d") }

/-- Method `tokenInfo()` — no `account_id`. -/
def tokenInfo (self : AIMSClientInstance) : ClientCall :=
  ClientCall.fetch
    { service_name := self.serviceName
      environment := self.environment
      path := "/token_info" }

/-- Method `initiateReset(email, returnTo)` — no `account_id`. -/
def initiateReset (self : AIMSClientInstance) (email returnTo : String) : ClientCall :=
  ClientCall.post
    { service_name := self.serviceName
      environment := self.environment
      path := "/reset_password"
      data := some ("\x7bemail: " ++ email ++ ", return_to: " ++ returnTo ++ "\x7d") }

/-- Method `resetWithToken(token, password)` — a `client.set` (PUT) call. -/
def resetWithToken (self : AIMSClientInstance) (token password : String) : ClientCall :=
  ClientCall.set
    { service_name := self.serviceName
      environment := self.environment
      path := "/reset_password/" ++ token
      data := some ("\x7bpassword: " ++ password ++ "\x7d") }

/-- Method `createRole(accountId, name, permissions)` — `permissions` is untyped in
the source and spliced into the template; modelled as the spliced text. -/
def createRole (self : AIMSClientInstance) (accountId name permissions : String) : ClientCall :=
  ClientCall.post
    { service_name := self.serviceName
      environment := self.environment
      account_id := some accountId
      path := "/roles"
      data := some ("\x7bname: " ++ name ++ ", permissions: " ++ permissions ++ "\x7d") }

/-- Method `deleteRole(accountId, roleId)`. -/
def deleteRole (self : AIMSClientInstance) (accountId roleId : String) : ClientCall :=
  ClientCall.delete
    { service_name := self.serviceName
      environment := self.environment
      account_id := some accountId
      path := "/roles/" ++ roleId }

/-- Method `getGlobalRole(roleId)` — no `account_id`. -/
def getGlobalRole (self : AIMSClientInstance) (roleId : String) : ClientCall :=
  ClientCall.fetch
    { service_name := self.serviceName
      environment := self.environment
      path := "/roles/" ++ roleId }

/-- Method `getAccountRole(accountId, roleId)`. -/
def getAccountRole (self : AIMSClientInstance) (accountId roleId : String) : ClientCall :=
  ClientCall.fetch
    { service_name := self.serviceName
      environment := self.environment
      account_id := some accountId
      path := "/roles/" ++ roleId }

/-- Method `getGlobalRoles()` — no `account_id`; the response's `.roles` is
projected by `getGlobalRolesRun`. -/
def getGlobalRoles (self : AIMSClientInstance) : ClientCall :=
  ClientCall.fetch
    { service_name := self.serviceName
      environment := self.environment
      path := "/roles" }

/-- Method `getAccountRoles(accountId)`. -/
def getAccountRoles (self : AIMSClientInstance) (accountId : String) : ClientCall :=
  ClientCall.fetch
    { service_name := self.serviceName
      environment := self.environment
      account_id := some accountId
      path := "/roles" }

/-- Method `updateRole(accountId, name, permissions)` — note: the source posts to
`'/roles'` and takes no `roleId` argument, although its own doc comment
documents `POST /aims/v1/:account_id/roles/:role_id`. -/
def updateRole (self : AIMSClientInstance) (accountId name permissions : String) : ClientCall :=
  ClientCall.post
    { service_name := self.serviceName
      environment := self.environment
      account_id := some accountId
      path := "/roles"
      data := some ("\x7bname: " ++ name ++ ", permissions: " ++ permissions ++ "\x7d") }

/-- Method `updateRoleName(accountId, name)` — same remark as `updateRole`: the
path is the fixed `'/roles'`, no role id is accepted or substituted. -/
def updateRoleName (self : AIMSClientInstance) (accountId name : String) : ClientCall :=
  ClientCall.post
    { service_name := self.serviceName
      environment := self.environment
      account_id := some accountId
      path := "/roles"
      data := some ("\x7bname: " ++ name ++ "\x7d") }

/-- Method `updateRolePermissions(accountId, permissions)` — same remark as
`updateRole`. -/
def updateRolePermissions (self : AIMSClientInstance) (accountId permissions : String) : ClientCall :=
  ClientCall.post
    { service_name := self.serviceName
      environment := self.environment
      account_id := some accountId
      path := "/roles"
      data := some ("\x7bpermissions: " ++ permissions ++ "\x7d") }

/-- Method `enrollMFA(uri, codes)` — no `account_id`; `codes` is untyped and
spliced, modelled as the spliced text. -/
def enrollMFA (self : AIMSClientInstance) (uri codes : String) : ClientCall :=
  ClientCall.post
    { service_name := self.serviceName
      environment := self.environment
      path := "/user/mfa/enroll"
      data := some ("\x7bmfa_uri: " ++ uri ++ ", mfa_codes: " ++ codes ++ "\x7d") }

/-- Method `deleteMFA(email)` — no `account_id`. -/
def deleteMFA (self : AIMSClientInstance) (email : String) : ClientCall :=
  ClientCall.delete
    { service_name := self.serviceName
      environment := self.environment
      path := "/user/mfa/" ++ email }

/-- Method `getUserDetails(accountId, userId, queryParams?)`. -/
def getUserDetails (self : AIMSClientInstance) (accountId userId : String)
    (queryParams : Option (List (String × String)) := none) : ClientCall :=
  ClientCall.fetch
    { service_name := self.serviceName
      environment := self.environment
      account_id := some accountId
      path := "/users/" ++ userId
      params := queryParams }

/-- Method `getUsers(accountId, queryParams?)` — the `.users` projection of the
response is `getUsersRun`. -/
def getUsers (self : AIMSClientInstance) (accountId : String)
    (queryParams : Option (List (String × String)) := none) : ClientCall :=
  ClientCall.fetch
    { service_name := self.serviceName
      environment := self.environment
      account_id := some accountId
      path := "/users"
      params := queryParams }

/-- Method `createAccessKey(accountId, userId, label)`. -/
def createAccessKey (self : AIMSClientInstance) (accountId userId label : String) : ClientCall :=
  ClientCall.post
    { service_name := self.serviceName
      environment := self.environment
      account_id := some accountId
      path := "/users/" ++ userId ++ "/access_keys"
      data := some ("\x7b\"label\": \"" ++ label ++ "\"\x7d") }

/-- Method `updateAccessKey(accessKeyId, label)` — no `account_id`. -/
def updateAccessKey (self : AIMSClientInstance) (accessKeyId label : String) : ClientCall :=
  ClientCall.post
    { service_name := self.serviceName
      environment := self.environment
      path := "/access_keys/" ++ accessKeyId
      data := some ("\x7b\"label\": \"" ++ label ++ "\"\x7d") }

/-- Method `getAccessKey(accessKeyId)` — no `account_id`. -/
def getAccessKey (self : AIMSClientInstance) (accessKeyId : String) : ClientCall :=
  ClientCall.fetch
    { service_name := self.serviceName
      environment := self.environment
      path := "/access_keys/" ++ accessKeyId }

/-- Method `getAccessKeys(accountId, userId, ttl = 60000)` — sets `ttl` but no
`retry_count`; the `.access_keys` projection is `getAccessKeysRun`. -/
def getAccessKeys (self : AIMSClientInstance) (accountId userId : String)
    (ttl : Nat := 60000) : ClientCall :=
  ClientCall.fetch
    { service_name := self.serviceName
      environment := self.environment
      account_id := some accountId
      ttl := some ttl
      path := "/users/" ++ userId ++ "/access_keys?out=full" }

/-- Method `deleteAccessKey(accountId, userId, accessKeyId)`. -/
def deleteAccessKey (self : AIMSClientInstance)
    (accountId userId accessKeyId : String) : ClientCall :=
  ClientCall.delete
    { service_name := self.serviceName
      environment := self.environment
      account_id := some accountId
      path := "/users/" ++ userId ++ "/access_keys/" ++ accessKeyId }

/-- Method `setProductionEnv()`. -/
def setProductionEnv (self : AIMSClientInstance) : AIMSClientInstance :=
  { self with environment := "production" }

/-- Method `setIntegrationEnv()`. -/
def setIntegrationEnv (self : AIMSClientInstance) : AIMSClientInstance :=
  { self with environment := "integration" }

end AIMSClientInstance

/-- A parsed Transport response, as the methods look at it: each list
envelope field may be present (`some`) or absent (`none`).  Projecting an
absent field in JavaScript yields `undefined`, modelled `none`. -/
structure APIResponse where
  accounts : Option (List AIMSAccount) := none
  account_ids : Option (List String) := none
  roles : Option (List AIMSRole) := none
  users : Option (List AIMSUser) := none
  access_keys : Option (List AIMSAccessKey) := none
deriving DecidableEq

namespace AIMSClientInstance

/-- End-to-end `getManagedAccounts` against a transport oracle: build the
call, hand it to the transport, return the `.accounts` projection of the
response (the source's `managedAccounts.accounts`). -/
def getManagedAccountsRun (self : AIMSClientInstance) (accountId : String)
    (queryParams : Option (List (String × String)))
    (transport : ClientCall → APIResponse) : Option (List AIMSAccount) :=
  (transport (self.getManagedAccounts accountId queryParams)).accounts

/-- End-to-end `getManagedAccountIds` (`.account_ids` projection). -/
def getManagedAccountIdsRun (self : AIMSClientInstance) (accountId : String)
    (queryParams : Option (List (String × String)))
    (transport : ClientCall → APIResponse) : Option (List String) :=
  (transport (self.getManagedAccountIds accountId queryParams)).account_ids

/-- End-to-end `getGlobalRoles` (`.roles` projection). -/
def getGlobalRolesRun (self : AIMSClientInstance)
    (transport : ClientCall → APIResponse) : Option (List AIMSRole) :=
  (transport self.getGlobalRoles).roles

/-- End-to-end `getAccountRoles` (`.roles` projection). -/
def getAccountRolesRun (self : AIMSClientInstance) (accountId : String)
    (transport : ClientCall → APIResponse) : Option (List AIMSRole) :=
  (transport (self.getAccountRoles accountId)).roles

/-- End-to-end `getUsers` (`.users` projection). -/
def getUsersRun (self : AIMSClientInstance) (accountId : String)
    (queryParams : Option (List (String × String)))
    (transport : ClientCall → APIResponse) : Option (List AIMSUser) :=
  (transport (self.getUsers accountId queryParams)).users

/-- End-to-end `getAccessKeys` (`.access_keys` projection). -/
def getAccessKeysRun (self : AIMSClientInstance) (accountId userId : String)
    (ttl : Nat) (transport : ClientCall → APIResponse) : Option (List AIMSAccessKey) :=
  (transport (self.getAccessKeys accountId userId ttl)).access_keys

end AIMSClientInstance

/-- The `APIRequestParams` object of a descriptor call (`none` for the two
authenticate delegations, which pass no descriptor object). -/
def ClientCall.paramsOf : ClientCall → Option APIRequestParams
  | .fetch p | .post p | .delete p | .set p => some p
  | _ => none

/-- The account-scoping field of a call. -/
def ClientCall.accountIdOf (c : ClientCall) : Option String :=
  (c.paramsOf.map (·.account_id)).getD none

/-- The environment value a call carries (every call form carries one). -/
def ClientCall.envOf : ClientCall → String
  | .fetch p | .post p | .delete p | .set p => p.environment
  | .authenticate _ _ _ e => e
  | .authenticateWithMFASessionToken _ _ e => e

/-- The service name of a descriptor call (`none` for authenticate calls,
which name no service). -/
def ClientCall.serviceNameOf (c : ClientCall) : Option String :=
  c.paramsOf.map (·.service_name)

/-- The path of a descriptor call. -/
def ClientCall.pathOf (c : ClientCall) : Option String :=
  c.paramsOf.map (·.path)

/-- The request body of a descriptor call (absent when the method passes no
`data` field). -/
def ClientCall.dataOf (c : ClientCall) : Option String :=
  (c.paramsOf.map (·.data)).getD none

/-- The `retry_count` hint of a call (absent when the method passes none). -/
def ClientCall.retryOf (c : ClientCall) : Option Nat :=
  (c.paramsOf.map (·.retry_count)).getD none

/-- The `ttl` hint of a call. -/
def ClientCall.ttlOf (c : ClientCall) : Option Nat :=
  (c.paramsOf.map (·.ttl)).getD none

/-- The effective automatic-retry budget of a call: the `retry_count` hint
when present, else `0` — per the Transport contract an absent hint means no
automatic retries. -/
def ClientCall.effectiveRetryBudget (c : ClientCall) : Nat :=
  c.retryOf.getD 0

/-- One logical operation of the façade together with its arguments, for
stating instance-wide invariants. -/
inductive Op where
  | createUser (accountId name email mobilePhone : String)
  | deleteUser (accountId userId : String)
  | getUserDetailsById (accountId userId : String)
  | getUserPermissions (accountId userId : String)
  | getAccountDetails (accountId : String)
  | getManagedAccounts (accountId : String) (queryParams : Option (List (String × String)))
  | getManagedAccountIds (accountId : String) (queryParams : Option (List (String × String)))
  | requireMFA (accountId : String) (mfaRequired : Bool)
  | authenticate (user pass : String) (mfa : Option String)
  | authenticateWithMFASessionToken (token mfa : String)
  | changePassword (email password newPassword : String)
  | tokenInfo
  | initiateReset (email returnTo : String)
  | resetWithToken (token password : String)
  | createRole (accountId name permissions : String)
  | deleteRole (accountId roleId : String)
  | getGlobalRole (roleId : String)
  | getAccountRole (accountId roleId : String)
  | getGlobalRoles
  | getAccountRoles (accountId : String)
  | updateRole (accountId name permissions : String)
  | updateRoleName (accountId name : String)
  | updateRolePermissions (accountId permissions : String)
  | enrollMFA (uri codes : String)
  | deleteMFA (email : String)
  | getUserDetails (accountId userId : String) (queryParams : Option (List (String × String)))
  | getUsers (accountId : String) (queryParams : Option (List (String × String)))
  | createAccessKey (accountId userId label : String)
  | updateAccessKey (accessKeyId label : String)
  | getAccessKey (accessKeyId : String)
  | getAccessKeys (accountId userId : String) (ttl : Nat)
  | deleteAccessKey (accountId userId accessKeyId : String)
  | setProductionEnv
  | setIntegrationEnv
deriving DecidableEq

/-- The instance state after running an operation.  Translated from the
source bodies: only the two environment setters assign to a field; every
other method body contains no assignment, so it leaves the state unchanged. -/
def Op.applyState (op : Op) (s : AIMSClientInstance) : AIMSClientInstance :=
  match op with
  | .setProductionEnv => s.setProductionEnv
  | .setIntegrationEnv => s.setIntegrationEnv
  | _ => s

/-- The client call an operation makes (none for the two setters, whose
bodies call nothing). -/
def Op.buildCall (op : Op) (s : AIMSClientInstance) : Option ClientCall :=
  match op with
  | .createUser a n e m => some (s.createUser a n e m)
  | .deleteUser a u => some (s.deleteUser a u)
  | .getUserDetailsById a u => some (s.getUserDetailsById a u)
  | .getUserPermissions a u => some (s.getUserPermissions a u)
  | .getAccountDetails a => some (s.getAccountDetails a)
  | .getManagedAccounts a q => some (s.getManagedAccounts a q)
  | .getManagedAccountIds a q => some (s.getManagedAccountIds a q)
  | .requireMFA a m => some (s.requireMFA a m)
  | .authenticate u p m => some (s.authenticate u p m)
  | .authenticateWithMFASessionToken t m => some (s.authenticateWithMFASessionToken t m)
  | .changePassword e p n => some (s.changePassword e p n)
  | .tokenInfo => some s.tokenInfo
  | .initiateReset e r => some (s.initiateReset e r)
  | .resetWithToken t p => some (s.resetWithToken t p)
  | .createRole a n p => some (s.createRole a n p)
  | .deleteRole a r => some (s.deleteRole a r)
  | .getGlobalRole r => some (s.getGlobalRole r)
  | .getAccountRole a r => some (s.getAccountRole a r)
  | .getGlobalRoles => some s.getGlobalRoles
  | .getAccountRoles a => some (s.getAccountRoles a)
  | .updateRole a n p => some (s.updateRole a n p)
  | .updateRoleName a n => some (s.updateRoleName a n)
  | .updateRolePermissions a p => some (s.updateRolePermissions a p)
  | .enrollMFA u c => some (s.enrollMFA u c)
  | .deleteMFA e => some (s.deleteMFA e)
  | .getUserDetails a u q => some (s.getUserDetails a u q)
  | .getUsers a q => some (s.getUsers a q)
  | .createAccessKey a u l => some (s.createAccessKey a u l)
  | .updateAccessKey k l => some (s.updateAccessKey k l)
  | .getAccessKey k => some (s.getAccessKey k)
  | .getAccessKeys a u t => some (s.getAccessKeys a u t)
  | .deleteAccessKey a u k => some (s.deleteAccessKey a u k)
  | .setProductionEnv => none
  | .setIntegrationEnv => none

/-- Whether an operation is one of the two environment setters. -/
def Op.isEnvSetter : Op → Bool
  | .setProductionEnv => true
  | .setIntegrationEnv => true
  | _ => false

/-- States reachable from a freshly constructed instance by any sequence of
operations. -/
inductive Reach : AIMSClientInstance → Prop where
  | init : Reach mkInstance
  | step (op : Op) {s : AIMSClientInstance} : Reach s → Reach (op.applyState s)

/-- Modelled from the spec: the canonical JSON serialization of one
string-valued field of a structured payload mapping. -/
def jsonEncodeField (kv : String × String) : String :=
  "\"" ++ kv.1 ++ "\": \"" ++ kv.2 ++ "\""

/-- Modelled from the spec: the canonical JSON serialization of a structured
payload (a mapping of field names to string values), used to compare the
payloads the code builds against the structurally-typed payloads the spec
prescribes. -/
def jsonEncodeObj (fields : List (String × String)) : String :=
  "\x7b" ++ String.intercalate ", " (fields.map jsonEncodeField) ++ "\x7d"

open AIMSClientInstance ClientCall

/-- C1 (counterexample): the claim assigns the access-key listing a retry
budget of 5, but `getAccessKeys` passes no `retry_count` at all — its hint
is absent, not `some 5`. -/
theorem c1_retry_policy_counterexample :
    ¬ ((mkInstance.getAccessKeys "2" "u-2" 60000).retryOf = some 5) := by
  decide

/-- C1 (amended): the idempotent reads `getAccountDetails`,
`getManagedAccounts`, `getManagedAccountIds` and `getUserDetailsById` carry
`retry_count = 5`; the access-key listing `getAccessKeys` carries no retry
hint; and every mutating operation carries no retry hint either (an absent
hint means zero automatic retries). -/
theorem c1_retry_policy_amended (s : AIMSClientInstance)
    (aid uid rid kid name email phone label pw np tok uri cds rT perms : String)
    (qp : Option (List (String × String))) (mfaB : Bool) (ttl : Nat) :
    (s.getAccountDetails aid).retryOf = some 5 ∧
    (s.getManagedAccounts aid qp).retryOf = some 5 ∧
    (s.getManagedAccountIds aid qp).retryOf = some 5 ∧
    (s.getUserDetailsById aid uid).retryOf = some 5 ∧
    (s.getAccessKeys aid uid ttl).retryOf = none ∧
    (s.createUser aid name email phone).retryOf = none ∧
    (s.createRole aid name perms).retryOf = none ∧
    (s.createAccessKey aid uid label).retryOf = none ∧
    (s.changePassword email pw np).retryOf = none ∧
    (s.deleteUser aid uid).retryOf = none ∧
    (s.deleteRole aid rid).retryOf = none ∧
    (s.deleteAccessKey aid uid kid).retryOf = none ∧
    (s.deleteMFA email).retryOf = none ∧
    (s.updateRole aid name perms).retryOf = none ∧
    (s.updateRoleName aid name).retryOf = none ∧
    (s.updateRolePermissions aid perms).retryOf = none ∧
    (s.updateAccessKey kid label).retryOf = none ∧
    (s.requireMFA aid mfaB).retryOf = none ∧
    (s.initiateReset email rT).retryOf = none ∧
    (s.resetWithToken tok pw).retryOf = none ∧
    (s.enrollMFA uri cds).retryOf = none :=
  ⟨rfl, rfl, rfl, rfl, rfl, rfl, rfl, rfl, rfl, rfl, rfl,
   rfl, rfl, rfl, rfl, rfl, rfl, rfl, rfl, rfl, rfl⟩

/-- C2 (counterexample): when the envelope field is absent from a
successful response, the list operations do not raise any failure — they
return the projection of the absent field (JavaScript `undefined`, modelled
`none`) as an ordinary value.  No `ContractViolation` (nor any other error
value) exists anywhere in the code. -/
theorem c2_unwrap_counterexample :
    mkInstance.getManagedAccountsRun "1000" none (fun _ => ({} : APIResponse)) = none ∧
    mkInstance.getUsersRun "1000" none (fun _ => ({} : APIResponse)) = none :=
  ⟨rfl, rfl⟩

/-- C2 (amended): every list operation returns exactly the envelope field's
collection when the field is present — in particular an empty collection
comes back as the empty sequence, not a failure — and returns `undefined`
(modelled `none`), raising nothing, when the field is absent. -/
theorem c2_unwrap_amended (s : AIMSClientInstance) (aid uid : String)
    (qp : Option (List (String × String))) (ttl : Nat)
    (t : ClientCall → APIResponse) :
    ((t (s.getManagedAccounts aid qp)).accounts = some [] →
      s.getManagedAccountsRun aid qp t = some []) ∧
    ((t (s.getManagedAccounts aid qp)).accounts = none →
      s.getManagedAccountsRun aid qp t = none) ∧
    ((t (s.getManagedAccountIds aid qp)).account_ids = some [] →
      s.getManagedAccountIdsRun aid qp t = some []) ∧
    ((t (s.getManagedAccountIds aid qp)).account_ids = none →
      s.getManagedAccountIdsRun aid qp t = none) ∧
    ((t s.getGlobalRoles).roles = some [] → s.getGlobalRolesRun t = some []) ∧
    ((t s.getGlobalRoles).roles = none → s.getGlobalRolesRun t = none) ∧
    ((t (s.getAccountRoles aid)).roles = some [] → s.getAccountRolesRun aid t = some []) ∧
    ((t (s.getAccountRoles aid)).roles = none → s.getAccountRolesRun aid t = none) ∧
    ((t (s.getUsers aid qp)).users = some [] → s.getUsersRun aid qp t = some []) ∧
    ((t (s.getUsers aid qp)).users = none → s.getUsersRun aid qp t = none) ∧
    ((t (s.getAccessKeys aid uid ttl)).access_keys = some [] →
      s.getAccessKeysRun aid uid ttl t = some []) ∧
    ((t (s.getAccessKeys aid uid ttl)).access_keys = none →
      s.getAccessKeysRun aid uid ttl t = none) :=
  ⟨fun h => h, fun h => h, fun h => h, fun h => h, fun h => h, fun h => h,
   fun h => h, fun h => h, fun h => h, fun h => h, fun h => h, fun h => h⟩

/-- C2 (witness): the amended theorem applied at concrete inputs — a
present-but-empty `accounts` envelope unwraps to the empty sequence, and an
absent `users` envelope yields `none`. -/
theorem c2_unwrap_amended_witness :
    mkInstance.getManagedAccountsRun "1000" none
      (fun _ => { accounts := some [] }) = some [] ∧
    mkInstance.getUsersRun "1000" none (fun _ => ({} : APIResponse)) = none := by
  constructor
  · exact (c2_unwrap_amended mkInstance "1000" "u" none 60000
      (fun _ => { accounts := some [] })).1 rfl
  · exact (c2_unwrap_amended mkInstance "1000" "u" none 60000
      (fun _ => ({} : APIResponse))).2.2.2.2.2.2.2.2.2.1 rfl

/-- C3 (counterexample): calling `createUser` or the account-scoped
`getAccountDetails` with an empty-string account id does not fail locally —
no ValidationError exists in the code — the descriptor is built and handed
to Transport with `account_id` set to the empty string. -/
theorem c3_validation_counterexample :
    (mkInstance.createUser "" "Bob" "bob@example.com" "123").accountIdOf = some "" ∧
    (mkInstance.getAccountDetails "").accountIdOf = some "" :=
  ⟨rfl, rfl⟩

/-- C3 (amended): no local validation is performed — an account-scoped
operation called with any account id (the empty string included) still
builds its descriptor and makes the Transport call, carrying that id
verbatim; documented global operations build descriptors with no account
id.  No ValidationError value exists in the code. -/
theorem c3_validation_amended (s : AIMSClientInstance)
    (aid name email phone rid u p : String) :
    (s.createUser aid name email phone).accountIdOf = some aid ∧
    (s.getAccountDetails aid).accountIdOf = some aid ∧
    (Op.createUser "" name email phone).buildCall s =
      some (s.createUser "" name email phone) ∧
    (Op.getAccountDetails "").buildCall s = some (s.getAccountDetails "") ∧
    (s.createUser "" name email phone).accountIdOf = some "" ∧
    (s.getAccountDetails "").accountIdOf = some "" ∧
    (s.getGlobalRole rid).accountIdOf = none ∧
    s.tokenInfo.accountIdOf = none ∧
    (s.authenticate u p none).accountIdOf = none :=
  ⟨rfl, rfl, rfl, rfl, rfl, rfl, rfl, rfl, rfl⟩

/-- C4 (counterexample): the payload of `changePassword` is not the
serialization of the structured field mapping the spec prescribes — the
code splices raw values between unquoted keys — and the splicing is
ambiguous: two different logical payloads produce the identical request. -/
theorem c4_payload_counterexample :
    ¬ ((mkInstance.changePassword "a@b.c" "p1" "p2").dataOf =
      some (jsonEncodeObj
        [("email", "a@b.c"), ("current_password", "p1"), ("new_password", "p2")])) ∧
    mkInstance.changePassword "a" "b, new_password: c" "d" =
      mkInstance.changePassword "a" "b" "c, new_password: d" := by
  constructor
  · decide
  · decide

/-- C4 (amended): payloads are free-form strings built by splicing the raw
argument values into fixed templates (JSON-quoted only in `createUser`,
`createAccessKey` and `updateAccessKey`; unquoted keys and values
elsewhere), present exactly on the POST/PUT (create/update-style)
operations; all fetch and delete operations carry no payload. -/
theorem c4_payload_amended (s : AIMSClientInstance)
    (aid uid rid kid name email phone label pw np tok uri cds rT perms : String)
    (qp : Option (List (String × String))) (mfaB : Bool) (ttl : Nat) :
    (s.createUser aid name email phone).dataOf =
      some ("\x7b\"name\": \"" ++ name ++ "\", \"email\": \"" ++ email ++
        "\", \"mobile_phone\": \"" ++ phone ++ "\"\x7d") ∧
    (s.changePassword email pw np).dataOf =
      some ("\x7bemail: " ++ email ++ ", current_password: " ++ pw ++
        ", new_password: " ++ np ++ "\x7d") ∧
    (s.requireMFA aid mfaB).dataOf =
      some ("\x7bmfa_required: " ++ (if mfaB then "true" else "false") ++ "\x7d") ∧
    (s.createRole aid name perms).dataOf.isSome = true ∧
    (s.updateRole aid name perms).dataOf.isSome = true ∧
    (s.updateRoleName aid name).dataOf.isSome = true ∧
    (s.updateRolePermissions aid perms).dataOf.isSome = true ∧
    (s.initiateReset email rT).dataOf.isSome = true ∧
    (s.resetWithToken tok pw).dataOf.isSome = true ∧
    (s.enrollMFA uri cds).dataOf.isSome = true ∧
    (s.createAccessKey aid uid label).dataOf.isSome = true ∧
    (s.updateAccessKey kid label).dataOf.isSome = true ∧
    (s.getAccountDetails aid).dataOf = none ∧
    (s.getUserDetailsById aid uid).dataOf = none ∧
    (s.getUserPermissions aid uid).dataOf = none ∧
    (s.getUserDetails aid uid qp).dataOf = none ∧
    (s.getUsers aid qp).dataOf = none ∧
    (s.getManagedAccounts aid qp).dataOf = none ∧
    (s.getManagedAccountIds aid qp).dataOf = none ∧
    s.tokenInfo.dataOf = none ∧
    (s.getGlobalRole rid).dataOf = none ∧
    (s.getAccountRole aid rid).dataOf = none ∧
    s.getGlobalRoles.dataOf = none ∧
    (s.getAccountRoles aid).dataOf = none ∧
    (s.getAccessKey kid).dataOf = none ∧
    (s.getAccessKeys aid uid ttl).dataOf = none ∧
    (s.deleteUser aid uid).dataOf = none ∧
    (s.deleteRole aid rid).dataOf = none ∧
    (s.deleteMFA email).dataOf = none ∧
    (s.deleteAccessKey aid uid kid).dataOf = none :=
  ⟨rfl, rfl, rfl, rfl, rfl, rfl, rfl, rfl, rfl, rfl, rfl, rfl, rfl, rfl, rfl,
   rfl, rfl, rfl, rfl, rfl, rfl, rfl, rfl, rfl, rfl, rfl, rfl, rfl, rfl, rfl⟩

/-- C5: every user/role/access-key scoped operation roots its descriptor
under the supplied account id, and the documented global operations
(global-role fetch, global-role list, token-info, authenticate) carry no
account id at all. -/
theorem c5_account_scoping (s : AIMSClientInstance)
    (aid uid rid kid name email phone label perms u p : String)
    (qp : Option (List (String × String))) (mfa : Option String) (ttl : Nat) :
    (s.createUser aid name email phone).accountIdOf = some aid ∧
    (s.deleteUser aid uid).accountIdOf = some aid ∧
    (s.getUserDetailsById aid uid).accountIdOf = some aid ∧
    (s.getUserPermissions aid uid).accountIdOf = some aid ∧
    (s.getUserDetails aid uid qp).accountIdOf = some aid ∧
    (s.getUsers aid qp).accountIdOf = some aid ∧
    (s.createRole aid name perms).accountIdOf = some aid ∧
    (s.deleteRole aid rid).accountIdOf = some aid ∧
    (s.getAccountRole aid rid).accountIdOf = some aid ∧
    (s.getAccountRoles aid).accountIdOf = some aid ∧
    (s.updateRole aid name perms).accountIdOf = some aid ∧
    (s.updateRoleName aid name).accountIdOf = some aid ∧
    (s.updateRolePermissions aid perms).accountIdOf = some aid ∧
    (s.createAccessKey aid uid label).accountIdOf = some aid ∧
    (s.getAccessKeys aid uid ttl).accountIdOf = some aid ∧
    (s.deleteAccessKey aid uid kid).accountIdOf = some aid ∧
    (s.getGlobalRole rid).accountIdOf = none ∧
    s.getGlobalRoles.accountIdOf = none ∧
    s.tokenInfo.accountIdOf = none ∧
    (s.authenticate u p mfa).accountIdOf = none :=
  ⟨rfl, rfl, rfl, rfl, rfl, rfl, rfl, rfl, rfl, rfl,
   rfl, rfl, rfl, rfl, rfl, rfl, rfl, rfl, rfl, rfl⟩

/-- A transport oracle answering every call with the single-key
`access_keys` envelope of the spec's example scenario. -/
def exampleKeysTransport : ClientCall → APIResponse := fun _ =>
  { access_keys := some [{ id := "k1", label := "api" }] }

/-- C6 (counterexample): the claim gives the example `getAccessKeys` call a
retry budget of 5, but the call carries no `retry_count` hint at all. -/
theorem c6_access_keys_counterexample :
    ¬ ((mkInstance.getAccessKeys "1000" "u-1" 60000).retryOf = some 5) := by
  decide

/-- C6 (amended): `getAccessKeys("1000", "u-1", ttl=60000)` builds a fetch
descriptor with path `/users/u-1/access_keys?out=full`, account-scoped
under `1000`, cache TTL 60000 and no retry hint (effective budget 0, not
5); given the response `{access_keys: [{id:"k1", label:"api"}]}` it returns
exactly that single-element sequence. -/
theorem c6_access_keys_amended :
    mkInstance.getAccessKeys "1000" "u-1" 60000 =
      ClientCall.fetch
        { service_name := "aims", environment := "production",
          account_id := some "1000", path := "/users/u-1/access_keys?out=full",
          ttl := some 60000 } ∧
    (mkInstance.getAccessKeys "1000" "u-1" 60000).retryOf = none ∧
    (mkInstance.getAccessKeys "1000" "u-1" 60000).effectiveRetryBudget = 0 ∧
    mkInstance.getAccessKeysRun "1000" "u-1" 60000 exampleKeysTransport =
      some [{ id := "k1", label := "api" }] := by
  refine ⟨?_, rfl, rfl, rfl⟩
  decide

/-- C7: `createUser("1000", "Bob Dobalina", "bob@example.com",
"123-555-0123")` builds a create (POST) descriptor with path `/users`,
account-scoped under `1000`, whose payload is exactly the serialization of
the mapping `{name, email, mobile_phone}` at those values, and whose
effective retry budget is zero (no retry hint is passed). -/
theorem c7_create_user_scenario :
    mkInstance.createUser "1000" "Bob Dobalina" "bob@example.com" "123-555-0123" =
      ClientCall.post
        { service_name := "aims", environment := "production",
          account_id := some "1000", path := "/users",
          data := some (jsonEncodeObj
            [("name", "Bob Dobalina"), ("email", "bob@example.com"),
             ("mobile_phone", "123-555-0123")]) } ∧
    (mkInstance.createUser "1000" "Bob Dobalina" "bob@example.com"
      "123-555-0123").effectiveRetryBudget = 0 := by
  constructor
  · decide
  · decide

/-- C8: contrary to the claim (and to the source's own doc comments, which
document `POST /aims/v1/:account_id/roles/:role_id`), the three update-role
methods accept no role id and post to the fixed path `/roles` — the built
path never contains a role id; `updateRole`'s call is even identical to
`createRole`'s. -/
theorem c8_update_role_path :
    (mkInstance.updateRoleName "1000" "Mega Power User").pathOf = some "/roles" ∧
    (mkInstance.updateRole "1000" "Mega Power User" "perms").pathOf = some "/roles" ∧
    (mkInstance.updateRolePermissions "1000" "perms").pathOf = some "/roles" ∧
    mkInstance.updateRole "1000" "n" "p" = mkInstance.createRole "1000" "n" "p" := by
  refine ⟨rfl, rfl, rfl, ?_⟩
  decide

/-- C9: on one instance used sequentially, selecting the integration
environment and issuing `getAccountDetails`, then selecting production and
issuing it again, yields a first descriptor tagged `integration` and a
second tagged `production`, the two otherwise identical. -/
theorem c9_environment_switch :
    mkInstance.setIntegrationEnv.getAccountDetails "1000" =
      ClientCall.fetch
        { service_name := "aims", environment := "integration",
          account_id := some "1000", path := "/account", retry_count := some 5 } ∧
    mkInstance.setIntegrationEnv.setProductionEnv.getAccountDetails "1000" =
      ClientCall.fetch
        { service_name := "aims", environment := "production",
          account_id := some "1000", path := "/account", retry_count := some 5 } := by
  constructor
  · decide
  · decide

/-- C10: a fresh instance starts in the production environment; on every
reachable state the service name is the constant `aims`; every operation
other than the two environment setters leaves the state unchanged; and
every call an operation builds carries the instance's current environment
and (when it names a service at all) the service name `aims`. -/
theorem c10_instance_invariants :
    mkInstance.environment = "production" ∧
    ∀ s : AIMSClientInstance, Reach s →
      s.serviceName = "aims" ∧
      ∀ op : Op,
        (op.isEnvSetter = false → op.applyState s = s) ∧
        ∀ c : ClientCall, op.buildCall s = some c →
          c.envOf = s.environment ∧
          ∀ n : String, c.serviceNameOf = some n → n = "aims" := by
  refine ⟨rfl, ?_⟩
  intro s hs
  have hserv : s.serviceName = "aims" := by
    induction hs with
    | init => rfl
    | step op _ ih =>
      cases op <;>
        simp [Op.applyState, AIMSClientInstance.setProductionEnv,
          AIMSClientInstance.setIntegrationEnv, ih]
  refine ⟨hserv, ?_⟩
  intro op
  constructor
  · intro hne
    cases op <;> first
      | rfl
      | simp [Op.isEnvSetter] at hne
  · intro c hc
    cases op <;>
      first
        | exact Option.noConfusion hc
        | (injection hc with h
           subst h
           exact ⟨rfl, fun n hn => by
             first
               | exact Option.noConfusion hn
               | (injection hn with hn
                  exact hn ▸ hserv)⟩)

/-- C10 (witness): the invariant theorem applied at the initial state and
the `tokenInfo` operation. -/
theorem c10_instance_invariants_witness :
    mkInstance.serviceName = "aims" ∧
    Op.tokenInfo.applyState mkInstance = mkInstance ∧
    ClientCall.envOf mkInstance.tokenInfo = mkInstance.environment := by
  have h := c10_instance_invariants
  refine ⟨(h.2 mkInstance Reach.init).1, ?_, ?_⟩
  · exact ((h.2 mkInstance Reach.init).2 Op.tokenInfo).1 rfl
  · exact (((h.2 mkInstance Reach.init).2 Op.tokenInfo).2 mkInstance.tokenInfo rfl).1
